import Mathlib

/-!
Shallow embedding of the CatWeazle registration agent
(src/catweazle_register/__init__.py) and proofs about its behaviour.

The program polls a registration API for a hostname and one-time token,
then runs trust-checked local scripts.  We embed:
  * a small JSON value type with Python-style indexing (raising on a
    missing key or a non-object) and membership,
  * the polling loop `Register.get_cw_data` as a pure function over a
    response oracle, producing a trace of observable events,
  * the `instance_id`, `otp` properties and the script runner
    `check_script` / `get_scripts` / `run_scripts` / `run`.
-/

namespace CatWeazle

/-- JSON-ish values: only strings and objects appear in the claims.
An object is an association list of string keys. -/
inductive JVal where
  | str : String → JVal
  | obj : List (String × JVal) → JVal

/-- Substring test, mirroring the Python expression s2 in s1 on strings. -/
def strContains (hay needle : String) : Bool :=
  (List.range (hay.length + 1)).any fun i => needle.isPrefixOf (hay.drop i)

/-- Python indexing v[k]: `some` of the value for key k of an object,
`none` when the key is absent (KeyError) or the value is a string
(TypeError).  `none` models an uncaught exception. -/
def jindex (v : JVal) (k : String) : Option JVal :=
  match v with
  | .str _ => none
  | .obj l => l.lookup k

/-- Python membership k in v: key membership for an object,
substring test for a string.  Total, as in Python. -/
def jmember (k : String) (v : JVal) : Bool :=
  match v with
  | .str s => strContains s k
  | .obj l => l.any fun p => p.1 == k

/-- Python falsiness of a JSON value: the empty string and the empty
object are falsy. -/
def jfalsy (v : JVal) : Bool :=
  match v with
  | .str s => s == ""
  | .obj l => l.isEmpty

/-- An HTTP response: its status code and its parsed JSON body,
`none` when the body is unparsable (resp.json() raises). -/
structure Resp where
  status : Int
  json : Option JVal

/-- Which API shape a network call targets: /api/v2/instances/... or
/api/v1/instances/... -/
inductive ApiV where
  | v2
  | v1
deriving DecidableEq

/-- Observable events of the polling loop: the start of a loop
iteration (one attempt-counter increment), a network call to one of the
two API shapes, and the fixed time.sleep(5). -/
inductive Event where
  | attemptStart : Event
  | httpGet : ApiV → Event
  | sleep5 : Event
deriving DecidableEq

/-- Result of handling one attempt body: success stores the values
assigned to self fields (the otp is `none` on the no-otp-ok path),
`retry` falls through to the next loop iteration, `crash` is an
uncaught exception (KeyError / TypeError / JSON decode error). -/
inductive StepRes where
  | success : JVal → Option JVal → StepRes
  | retry : StepRes
  | crash : StepRes

/-- The body of the loop after a shape succeeded and bound `data`:
  if "ipa_otp" in data["data"]: fqdn and otp are read and stored;
  elif no_otp_ok: only fqdn is stored;
  else: incomplete, sleep and retry. -/
def parseData (no_otp_ok : Bool) (data : JVal) : StepRes :=
  match jindex data "data" with
  | none => .crash
  | some inner =>
    if jmember "ipa_otp" inner then
      match jindex inner "fqdn" with
      | none => .crash
      | some f =>
        match jindex inner "ipa_otp" with
        | none => .crash
        | some o => .success f (some o)
    else if no_otp_ok then
      match jindex inner "fqdn" with
      | none => .crash
      | some f => .success f none
    else .retry

/-- One iteration of the loop in get_cw_data: query v2; on a 200 parse
the body itself; otherwise query v1 and on a 200 parse body["data"];
otherwise sleep 5 seconds and retry.  The event list records the
attempt increment, every network call, and the sleep (a sleep happens
exactly on the retry outcomes). -/
def oneAttempt (no_otp_ok : Bool) (r2 r1 : Resp) : List Event × StepRes :=
  if r2.status == 200 then
    match r2.json with
    | none => ([.attemptStart, .httpGet .v2], .crash)
    | some d =>
      let res := parseData no_otp_ok d
      ([.attemptStart, .httpGet .v2] ++
        (match res with | .retry => [Event.sleep5] | _ => []), res)
  else
    if r1.status == 200 then
      match r1.json with
      | none => ([.attemptStart, .httpGet .v2, .httpGet .v1], .crash)
      | some j =>
        match jindex j "data" with
        | none => ([.attemptStart, .httpGet .v2, .httpGet .v1], .crash)
        | some d =>
          let res := parseData no_otp_ok d
          ([.attemptStart, .httpGet .v2, .httpGet .v1] ++
            (match res with | .retry => [Event.sleep5] | _ => []), res)
    else
      ([.attemptStart, .httpGet .v2, .httpGet .v1, .sleep5], .retry)

/-- Outcome of get_cw_data: normal return with the stored fqdn and otp,
sys.exit(1) after the loop is exhausted, or an uncaught exception. -/
inductive CwOutcome where
  | ok : JVal → Option JVal → CwOutcome
  | exit1 : CwOutcome
  | exn : CwOutcome

/-- The retry loop of get_cw_data: `env i api` is the response the
network gives to the query of shape `api` during attempt `i`; the
first argument counts the remaining iterations of
for _ in range(retry), the second is the index of the next attempt. -/
def pollAux (no_otp_ok : Bool) (env : Nat → ApiV → Resp) :
    Nat → Nat → List Event × CwOutcome
  | 0, _ => ([], .exit1)
  | n + 1, i =>
    let step := oneAttempt no_otp_ok (env i .v2) (env i .v1)
    match step.2 with
    | .success f o => (step.1, .ok f o)
    | .crash => (step.1, .exn)
    | .retry =>
      let rest := pollAux no_otp_ok env n (i + 1)
      (step.1 ++ rest.1, rest.2)

/-- Register.get_cw_data with `retry` attempts against the response
oracle `env`. -/
def get_cw_data (no_otp_ok : Bool) (retry : Nat) (env : Nat → ApiV → Resp) :
    List Event × CwOutcome :=
  pollAux no_otp_ok env retry 0

/-- The otp property: `"NO_OTP"` when the stored token is None or falsy
(if not self._otp), the stored token otherwise. -/
def pyOtp (stored : Option JVal) : JVal :=
  match stored with
  | none => .str "NO_OTP"
  | some v => if jfalsy v then .str "NO_OTP" else v

/-- The argument vector passed to every script by run_scripts:
[_file, self.fqdn, self.otp]. -/
def scriptInvocation (file : String) (fqdn : JVal) (otpStored : Option JVal) :
    List JVal :=
  [JVal.str file, fqdn, pyOtp otpStored]

/-- What the metadata query for the instance id can do:
raise a transport error (unreachable) or deliver a response whose
status is never inspected and whose text body is used directly. -/
inductive MetaResult where
  | unreachable : MetaResult
  | response : Int → String → MetaResult
deriving DecidableEq

/-- Result of one access of the instance_id property: an uncaught
transport exception, or the returned identity together with the new
cache contents and whether a metadata query was performed. -/
inductive IdAccess where
  | exn : IdAccess
  | value : String → Option String → Bool → IdAccess
deriving DecidableEq

/-- Python falsiness of the _instance_id field: None or the empty
string (if not self._instance_id). -/
def cacheFalsy (cache : Option String) : Bool :=
  match cache with
  | none => true
  | some s => s == ""

/-- The instance_id property: when the cache is falsy, perform the
metadata query and store its text (whatever the status code was);
otherwise return the cached value without a query. -/
def instance_id (cache : Option String) (m : MetaResult) : IdAccess :=
  if cacheFalsy cache then
    match m with
    | .unreachable => .exn
    | .response _ t => .value t (some t) true
  else
    .value (cache.getD "") cache false

/-- Metadata of a script candidate, as read by os.stat / os.path.isfile. -/
structure FileMeta where
  isFile : Bool
  uid : Nat
  mode : Nat
deriving DecidableEq

/-- Register.check_script: accept only a regular file owned by uid 0
whose mode has the owner-execute bit (0o100 = 64) set and the
other-write (2) and group-write (0o20 = 16) bits clear.  The checks
appear in source order. -/
def check_script (m : FileMeta) : Bool :=
  if !m.isFile then false
  else if m.uid != 0 then false
  else if m.mode &&& 64 != 64 then false
  else if m.mode &&& 2 == 2 then false
  else if m.mode &&& 16 == 16 then false
  else true

/-- Register.get_scripts: sort the directory listing, keep the
candidates accepted by check_script, in order. -/
def get_scripts (listing : List String) (meta : String → FileMeta) :
    List String :=
  (listing.insertionSort (· ≤ ·)).filter fun n => check_script (meta n)

/-- Register.run_scripts on an already-validated file list: run the
scripts in order; on the first non-zero exit status stop and
sys.exit(failure_return_code).  Returns the files actually executed
and `some code` for sys.exit(code), `none` for normal completion.
`exec` gives each script's exit status. -/
def run_scripts (exec : String → Int) (frc : Nat) :
    List String → List String × Option Nat
  | [] => ([], none)
  | f :: rest =>
    if exec f != 0 then ([f], some frc)
    else
      let t := run_scripts exec frc rest
      (f :: t.1, t.2)

/-- The script phases of Register.run: the preflight batch with
failure_return_code=0, then the register batch with the default
failure_return_code=1.  Returns every script executed across both
phases and the exit disposition. -/
def runPhases (exec : String → Int) (preflight register : List String) :
    List String × Option Nat :=
  match run_scripts exec 0 preflight with
  | (ran, some c) => (ran, some c)
  | (ran, none) =>
    let t := run_scripts exec 1 register
    (ran ++ t.1, t.2)

/-- Checks that between any two consecutive attemptStart events there
is a sleep5 event: the accumulator records whether a sleep has
occurred since the last attempt began (initially true, so the first
attempt needs no preceding sleep). -/
def sepAux : Bool → List Event → Bool
  | _, [] => true
  | ok, Event.attemptStart :: rest => ok && sepAux false rest
  | _, Event.sleep5 :: rest => sepAux true rest
  | ok, Event.httpGet _ :: rest => sepAux ok rest

/-- Every attempt after the first is preceded by an inter-attempt
sleep somewhere since the previous attempt began. -/
def attemptsSeparated (l : List Event) : Bool :=
  sepAux true l

/-- Exit statuses for the run-phases witness: one failing script. -/
def execC4 : String → Int := fun s => if s == "fail.sh" then 1 else 0

/-- Witness oracle: v2 always unavailable, v1 delivering the legacy
doubly-nested success body. -/
def envC1 : Nat → ApiV → Resp := fun _ api =>
  match api with
  | .v2 => ⟨500, none⟩
  | .v1 =>
    ⟨200, some (JVal.obj [("data", JVal.obj [("data", JVal.obj
      [("fqdn", JVal.str "host1.example.com"),
        ("ipa_otp", JVal.str "secret123")])])])⟩

/-- Witness oracle: both API shapes always fail. -/
def envC2 : Nat → ApiV → Resp := fun _ _ => ⟨503, none⟩

/-- Witness oracle: v2 succeeds but the payload has no token field. -/
def envC3 : Nat → ApiV → Resp := fun _ _ =>
  ⟨200, some (JVal.obj [("data", JVal.obj
    [("fqdn", JVal.str "host1.example.com")])])⟩

/-- Counterexample oracle: HTTP 200 whose body lacks the data key. -/
def envC6 : Nat → ApiV → Resp := fun _ _ => ⟨200, some (JVal.obj [])⟩

/-- Witness oracle: HTTP 200 with an unparsable body. -/
def envC6a : Nat → ApiV → Resp := fun _ _ => ⟨200, none⟩

/-- Counterexample oracle: v2 succeeds with the singly-nested body
(fqdn and token directly under the data key). -/
def envC7 : Nat → ApiV → Resp := fun _ _ =>
  ⟨200, some (JVal.obj [("data", JVal.obj
    [("fqdn", JVal.str "host1.example.com"),
      ("ipa_otp", JVal.str "secret123")])])⟩

/-- Counterexample oracle: v2 succeeds with the doubly-nested body the
claim ascribes to the v2 shape. -/
def envC7n : Nat → ApiV → Resp := fun _ _ =>
  ⟨200, some (JVal.obj [("data", JVal.obj [("data", JVal.obj
    [("fqdn", JVal.str "host1.example.com"),
      ("ipa_otp", JVal.str "secret123")])])])⟩

/-- Witness oracle: v2 succeeds with the token field present but
holding the empty string. -/
def envC10 : Nat → ApiV → Resp := fun _ _ =>
  ⟨200, some (JVal.obj [("data", JVal.obj
    [("fqdn", JVal.str "host1.example.com"),
      ("ipa_otp", JVal.str "")])])⟩

end CatWeazle

namespace CatWeazle

/-! ## Script runner: helper lemmas -/

theorem run_scripts_all_ok (exec : String → Int) (frc : Nat) :
    ∀ l : List String, (∀ s ∈ l, exec s = 0) → run_scripts exec frc l = (l, none)
  | [], _ => rfl
  | f :: rest, h => by
    have hf : exec f = 0 := h f (List.mem_cons_self f rest)
    have ih := run_scripts_all_ok exec frc rest
      (fun s hs => h s (List.mem_cons_of_mem f hs))
    simp [run_scripts, hf, ih]

theorem run_scripts_first_fail (exec : String → Int) (frc : Nat) (f : String)
    (hf : exec f ≠ 0) :
    ∀ p1 p2 : List String, (∀ s ∈ p1, exec s = 0) →
      run_scripts exec frc (p1 ++ f :: p2) = (p1 ++ [f], some frc)
  | [], p2, _ => by
    simp [run_scripts, bne_iff_ne, hf]
  | g :: p1, p2, h => by
    have hg : exec g = 0 := h g (List.mem_cons_self g p1)
    have ih := run_scripts_first_fail exec frc f hf p1 p2
      (fun s hs => h s (List.mem_cons_of_mem g hs))
    simp [run_scripts, hg, ih]

/-- C4: a failing script aborts its batch and any later batch; a
preflight failure exits with code 0, a register failure with
the non-zero code 1. -/
theorem c4_script_failure_policy (exec : String → Int) :
    (∀ (p1 p2 reg : List String) (f : String),
      (∀ s ∈ p1, exec s = 0) → exec f ≠ 0 →
      runPhases exec (p1 ++ f :: p2) reg = (p1 ++ [f], some 0))
    ∧ (∀ (pre r1 r2 : List String) (f : String),
      (∀ s ∈ pre, exec s = 0) → (∀ s ∈ r1, exec s = 0) → exec f ≠ 0 →
      runPhases exec pre (r1 ++ f :: r2) = (pre ++ (r1 ++ [f]), some 1)) := by
  constructor
  · intro p1 p2 reg f h1 hf
    have hp := run_scripts_first_fail exec 0 f hf p1 p2 h1
    simp [runPhases, hp]
  · intro pre r1 r2 f hpre hr1 hf
    have hp := run_scripts_all_ok exec 0 pre hpre
    have hr := run_scripts_first_fail exec 1 f hf r1 r2 hr1
    simp [runPhases, hp, hr]

theorem c4_witness :
    runPhases execC4 (["a.sh"] ++ "fail.sh" :: ["b.sh"]) ["r.sh"] =
      (["a.sh"] ++ ["fail.sh"], some 0)
    ∧ runPhases execC4 ["a.sh"] (["r1.sh"] ++ "fail.sh" :: ["r2.sh"]) =
      (["a.sh"] ++ (["r1.sh"] ++ ["fail.sh"]), some 1) := by
  constructor
  · exact (c4_script_failure_policy execC4).1 ["a.sh"] ["b.sh"] ["r.sh"] "fail.sh"
      (by intro s hs; rcases List.mem_singleton.mp hs with rfl; rfl)
      (by decide)
  · exact (c4_script_failure_policy execC4).2 ["a.sh"] ["r1.sh"] ["r2.sh"] "fail.sh"
      (by intro s hs; rcases List.mem_singleton.mp hs with rfl; rfl)
      (by intro s hs; rcases List.mem_singleton.mp hs with rfl; rfl)
      (by decide)

/-! ## Script validation: bit-test helpers -/

theorem and64_eq (n : Nat) : (n &&& 64 == 64) = n.testBit 6 := by
  have h := Nat.and_two_pow n 6
  norm_num at h
  rw [h]
  cases hb : n.testBit 6 <;> simp

theorem and2_eq (n : Nat) : (n &&& 2 == 2) = n.testBit 1 := by
  have h := Nat.and_two_pow n 1
  norm_num at h
  rw [h]
  cases hb : n.testBit 1 <;> simp

theorem and16_eq (n : Nat) : (n &&& 16 == 16) = n.testBit 4 := by
  have h := Nat.and_two_pow n 4
  norm_num at h
  rw [h]
  cases hb : n.testBit 4 <;> simp

theorem check_script_eq (m : FileMeta) :
    check_script m =
      (m.isFile && (m.uid == 0) && (m.mode &&& 64 == 64) &&
        !(m.mode &&& 2 == 2) && !(m.mode &&& 16 == 16)) := by
  unfold check_script
  cases h1 : m.isFile <;> cases h2 : m.uid == 0 <;>
    cases h3 : m.mode &&& 64 == 64 <;> cases h4 : m.mode &&& 2 == 2 <;>
      cases h5 : m.mode &&& 16 == 16 <;> simp [h1, h2, h3, h4, h5] <;>
        simp_all

/-- C5: a candidate is executed iff it is a regular file, owned by
uid 0, owner-executable (bit 6), and writable by neither group (bit 4)
nor others (bit 1); a rejected candidate is merely absent from the
batch, the remaining listing is still processed. -/
theorem c5_script_trust_filter (listing : List String) (meta : String → FileMeta)
    (cand : String) (m : FileMeta) :
    (cand ∈ get_scripts listing meta ↔
      (cand ∈ listing ∧ check_script (meta cand) = true))
    ∧ (check_script m = true ↔
      (m.isFile = true ∧ m.uid = 0 ∧ m.mode.testBit 6 = true ∧
        m.mode.testBit 4 = false ∧ m.mode.testBit 1 = false)) := by
  constructor
  · unfold get_scripts
    rw [List.mem_filter, List.mem_insertionSort]
  · rw [check_script_eq, and64_eq, and2_eq, and16_eq]
    simp only [Bool.and_eq_true, Bool.not_eq_true', beq_iff_eq]
    tauto

/-! ## Identity resolution -/

/-- C8 counterexample: a non-success (404) metadata response is not a
failure - its body text is cached and returned as the instance
identity. -/
theorem c8_counterexample :
    instance_id none (MetaResult.response 404 "notfound") =
      IdAccess.value "notfound" (some "notfound") true := rfl

/-- C8 amended: identity resolution raises (fatally) exactly when the
metadata source is unreachable; any HTTP response, success or not,
yields its text body as the identity without the status being
inspected. -/
theorem c8_amended_transport_only (st : Int) (t : String) :
    instance_id none MetaResult.unreachable = IdAccess.exn
    ∧ instance_id none (MetaResult.response st t) = IdAccess.value t (some t) true :=
  ⟨rfl, rfl⟩

/-- C9 counterexample: when the first metadata fetch returns an empty
body, the empty identity is not treated as cached - a later access
queries the metadata source again and can return a different value, so
the source may be queried more than once per run. -/
theorem c9_counterexample :
    instance_id none (MetaResult.response 200 "") =
      IdAccess.value "" (some "") true
    ∧ instance_id (some "") (MetaResult.response 200 "second") =
      IdAccess.value "second" (some "second") true :=
  ⟨rfl, rfl⟩

/-- C9 amended: once a non-empty identity is cached, every later access
returns that same cached value and performs no metadata query (the
memoization test is truthiness, so only the empty identity escapes the
cache). -/
theorem c9_amended_truthy_memoized (s : String) (m : MetaResult) (h : s ≠ "") :
    instance_id (some s) m = IdAccess.value s (some s) false := by
  have hc : cacheFalsy (some s) = false := by
    simp [cacheFalsy, h]
  simp [instance_id, hc]

theorem c9_witness :
    instance_id (some "i-0abc") (MetaResult.response 200 "other") =
      IdAccess.value "i-0abc" (some "i-0abc") false :=
  c9_amended_truthy_memoized "i-0abc" (MetaResult.response 200 "other") (by decide)

end CatWeazle

namespace CatWeazle

/-! ## Polling loop: helper lemmas -/

theorem pollAux_succ_success (no : Bool) (env : Nat → ApiV → Resp) (n i : Nat)
    (evs : List Event) (f : JVal) (o : Option JVal)
    (h : oneAttempt no (env i ApiV.v2) (env i ApiV.v1) = (evs, StepRes.success f o)) :
    pollAux no env (n + 1) i = (evs, CwOutcome.ok f o) := by
  simp [pollAux, h]

theorem pollAux_succ_crash (no : Bool) (env : Nat → ApiV → Resp) (n i : Nat)
    (evs : List Event)
    (h : oneAttempt no (env i ApiV.v2) (env i ApiV.v1) = (evs, StepRes.crash)) :
    pollAux no env (n + 1) i = (evs, CwOutcome.exn) := by
  simp [pollAux, h]

theorem pollAux_succ_retry (no : Bool) (env : Nat → ApiV → Resp) (n i : Nat)
    (evs : List Event)
    (h : oneAttempt no (env i ApiV.v2) (env i ApiV.v1) = (evs, StepRes.retry)) :
    pollAux no env (n + 1) i =
      (evs ++ (pollAux no env n (i + 1)).1, (pollAux no env n (i + 1)).2) := by
  simp [pollAux, h]

theorem oneAttempt_v2_unparsable (no : Bool) (r2 r1 : Resp)
    (h : r2 = ⟨200, none⟩) :
    oneAttempt no r2 r1 =
      ([Event.attemptStart, Event.httpGet ApiV.v2], StepRes.crash) := by
  subst h
  simp [oneAttempt]

theorem oneAttempt_v2_200 (no : Bool) (r2 r1 : Resp) (b : JVal)
    (h : r2 = ⟨200, some b⟩) :
    oneAttempt no r2 r1 =
      ([Event.attemptStart, Event.httpGet ApiV.v2] ++
        (match parseData no b with
          | StepRes.retry => [Event.sleep5]
          | _ => []),
        parseData no b) := by
  subst h
  simp [oneAttempt]

theorem oneAttempt_v1_200 (no : Bool) (r2 r1 : Resp) (j d : JVal)
    (h2 : r2.status ≠ 200) (h1 : r1 = ⟨200, some j⟩)
    (hd : jindex j "data" = some d) :
    oneAttempt no r2 r1 =
      ([Event.attemptStart, Event.httpGet ApiV.v2, Event.httpGet ApiV.v1] ++
        (match parseData no d with
          | StepRes.retry => [Event.sleep5]
          | _ => []),
        parseData no d) := by
  subst h1
  simp [oneAttempt, h2, hd]

theorem oneAttempt_both_fail (no : Bool) (r2 r1 : Resp)
    (h2 : r2.status ≠ 200) (h1 : r1.status ≠ 200) :
    oneAttempt no r2 r1 =
      ([Event.attemptStart, Event.httpGet ApiV.v2, Event.httpGet ApiV.v1,
        Event.sleep5], StepRes.retry) := by
  simp [oneAttempt, h2, h1]

theorem parseData_with_otp (no : Bool) (d inner f o : JVal)
    (hd : jindex d "data" = some inner) (hm : jmember "ipa_otp" inner = true)
    (hf : jindex inner "fqdn" = some f) (ho : jindex inner "ipa_otp" = some o) :
    parseData no d = StepRes.success f (some o) := by
  simp [parseData, hd, hm, hf, ho]

theorem parseData_missing_otp_accept (d inner f : JVal)
    (hd : jindex d "data" = some inner) (hm : jmember "ipa_otp" inner = false)
    (hf : jindex inner "fqdn" = some f) :
    parseData true d = StepRes.success f none := by
  simp [parseData, hd, hm, hf]

theorem parseData_missing_otp_reject (d inner : JVal)
    (hd : jindex d "data" = some inner) (hm : jmember "ipa_otp" inner = false) :
    parseData false d = StepRes.retry := by
  simp [parseData, hd, hm]

theorem parseData_no_data (no : Bool) (d : JVal)
    (hd : jindex d "data" = none) :
    parseData no d = StepRes.crash := by
  simp [parseData, hd]

/-- A v2 success whose body carries a data object with both fields
makes the poll return those values after one attempt and one call. -/
theorem poll_v2_success (no : Bool) (n : Nat) (env : Nat → ApiV → Resp)
    (b inner f o : JVal)
    (h200 : env 0 ApiV.v2 = ⟨200, some b⟩)
    (hdata : jindex b "data" = some inner)
    (hm : jmember "ipa_otp" inner = true)
    (hf : jindex inner "fqdn" = some f)
    (ho : jindex inner "ipa_otp" = some o) :
    get_cw_data no (n + 1) env =
      ([Event.attemptStart, Event.httpGet ApiV.v2], CwOutcome.ok f (some o)) := by
  have hp := parseData_with_otp no b inner f o hdata hm hf ho
  have ha := oneAttempt_v2_200 no (env 0 ApiV.v2) (env 0 ApiV.v1) b h200
  rw [hp] at ha
  exact pollAux_succ_success no env n 0 _ f (some o) ha

/-- A v2 failure followed by a v1 success with the doubly-nested body
makes the poll return the legacy values after one attempt, two calls. -/
theorem poll_v1_success (no : Bool) (n : Nat) (env : Nat → ApiV → Resp)
    (j d inner f o : JVal)
    (h2 : (env 0 ApiV.v2).status ≠ 200)
    (h1 : env 0 ApiV.v1 = ⟨200, some j⟩)
    (hjd : jindex j "data" = some d)
    (hdd : jindex d "data" = some inner)
    (hm : jmember "ipa_otp" inner = true)
    (hf : jindex inner "fqdn" = some f)
    (ho : jindex inner "ipa_otp" = some o) :
    get_cw_data no (n + 1) env =
      ([Event.attemptStart, Event.httpGet ApiV.v2, Event.httpGet ApiV.v1],
        CwOutcome.ok f (some o)) := by
  have hp := parseData_with_otp no d inner f o hdd hm hf ho
  have ha := oneAttempt_v1_200 no (env 0 ApiV.v2) (env 0 ApiV.v1) j d h2 h1 hjd
  rw [hp] at ha
  exact pollAux_succ_success no env n 0 _ f (some o) ha

end CatWeazle

namespace CatWeazle

/-- C1: when the v2 query fails and the v1 query succeeds with both
fields, poll returns the legacy values after exactly one attempt
increment and exactly two network calls, with no sleep. -/
theorem c1_legacy_fallback (no : Bool) (n : Nat) (env : Nat → ApiV → Resp)
    (j d inner f o : JVal)
    (h2 : (env 0 ApiV.v2).status ≠ 200)
    (h1 : env 0 ApiV.v1 = ⟨200, some j⟩)
    (hjd : jindex j "data" = some d)
    (hdd : jindex d "data" = some inner)
    (hm : jmember "ipa_otp" inner = true)
    (hf : jindex inner "fqdn" = some f)
    (ho : jindex inner "ipa_otp" = some o) :
    get_cw_data no (n + 1) env =
      ([Event.attemptStart, Event.httpGet ApiV.v2, Event.httpGet ApiV.v1],
        CwOutcome.ok f (some o)) :=
  poll_v1_success no n env j d inner f o h2 h1 hjd hdd hm hf ho

theorem c1_witness :
    get_cw_data false 1 envC1 =
      ([Event.attemptStart, Event.httpGet ApiV.v2, Event.httpGet ApiV.v1],
        CwOutcome.ok (JVal.str "host1.example.com")
          (some (JVal.str "secret123"))) :=
  c1_legacy_fallback false 0 envC1
    (JVal.obj [("data", JVal.obj [("data", JVal.obj
      [("fqdn", JVal.str "host1.example.com"),
        ("ipa_otp", JVal.str "secret123")])])])
    (JVal.obj [("data", JVal.obj
      [("fqdn", JVal.str "host1.example.com"),
        ("ipa_otp", JVal.str "secret123")])])
    (JVal.obj [("fqdn", JVal.str "host1.example.com"),
      ("ipa_otp", JVal.str "secret123")])
    (JVal.str "host1.example.com") (JVal.str "secret123")
    (by decide) rfl rfl rfl rfl rfl rfl

theorem oneAttempt_v1_unparsable (no : Bool) (r2 r1 : Resp)
    (h2 : r2.status ≠ 200) (h1 : r1 = ⟨200, none⟩) :
    oneAttempt no r2 r1 =
      ([Event.attemptStart, Event.httpGet ApiV.v2, Event.httpGet ApiV.v1],
        StepRes.crash) := by
  subst h1
  simp [oneAttempt, h2]

theorem oneAttempt_v1_no_data (no : Bool) (r2 r1 : Resp) (j : JVal)
    (h2 : r2.status ≠ 200) (h1 : r1 = ⟨200, some j⟩)
    (hd : jindex j "data" = none) :
    oneAttempt no r2 r1 =
      ([Event.attemptStart, Event.httpGet ApiV.v2, Event.httpGet ApiV.v1],
        StepRes.crash) := by
  subst h1
  simp [oneAttempt, h2, hd]

theorem oneAttempt_retry_shape (no : Bool) (r2 r1 : Resp)
    (h : (oneAttempt no r2 r1).2 = StepRes.retry) :
    (oneAttempt no r2 r1).1 =
        [Event.attemptStart, Event.httpGet ApiV.v2, Event.sleep5] ∨
    (oneAttempt no r2 r1).1 =
        [Event.attemptStart, Event.httpGet ApiV.v2, Event.httpGet ApiV.v1,
          Event.sleep5] := by
  by_cases h2 : r2.status = 200
  · rcases hj : r2.json with _ | d
    · rw [oneAttempt_v2_unparsable no r2 r1 (by cases r2; simp_all)] at h
      simp at h
    · have he := oneAttempt_v2_200 no r2 r1 d (by cases r2; simp_all)
      rw [he] at h
      have hp : parseData no d = StepRes.retry := h
      rw [he, hp]
      left
      rfl
  · by_cases h1 : r1.status = 200
    · rcases hj : r1.json with _ | j
      · rw [oneAttempt_v1_unparsable no r2 r1 h2 (by cases r1; simp_all)] at h
        simp at h
      · rcases hd : jindex j "data" with _ | d
        · rw [oneAttempt_v1_no_data no r2 r1 j h2
            (by cases r1; simp_all) hd] at h
          simp at h
        · have he := oneAttempt_v1_200 no r2 r1 j d h2
            (by cases r1; simp_all) hd
          rw [he] at h
          have hp : parseData no d = StepRes.retry := h
          rw [he, hp]
          right
          rfl
    · rw [oneAttempt_both_fail no r2 r1 h2 h1]
      right
      rfl

theorem pollAux_all_retry_spec (no : Bool) (env : Nat → ApiV → Resp) :
    ∀ (N i : Nat),
      (∀ k, k < N →
        (oneAttempt no (env (i + k) ApiV.v2) (env (i + k) ApiV.v1)).2 =
          StepRes.retry) →
      (pollAux no env N i).2 = CwOutcome.exit1 ∧
      (pollAux no env N i).1.count Event.attemptStart = N ∧
      (pollAux no env N i).1.count Event.sleep5 = N ∧
      sepAux true (pollAux no env N i).1 = true
  | 0, i, _ => by simp [pollAux, sepAux]
  | N + 1, i, h => by
    have h0 : (oneAttempt no (env i ApiV.v2) (env i ApiV.v1)).2 =
        StepRes.retry := by
      have := h 0 (Nat.succ_pos N)
      simpa using this
    obtain ⟨hout, hca, hcs, hsep⟩ :=
      pollAux_all_retry_spec no env N (i + 1) (fun k hk => by
        have hk1 := h (k + 1) (Nat.succ_lt_succ hk)
        have he : i + (k + 1) = i + 1 + k := by omega
        rw [he] at hk1
        exact hk1)
    have hstep : oneAttempt no (env i ApiV.v2) (env i ApiV.v1) =
        ((oneAttempt no (env i ApiV.v2) (env i ApiV.v1)).1, StepRes.retry) := by
      rw [← h0]
    have hpoll := pollAux_succ_retry no env N i _ hstep
    rw [hpoll]
    rcases oneAttempt_retry_shape no (env i ApiV.v2) (env i ApiV.v1) h0 with
      hs | hs <;> rw [hs] <;> refine ⟨hout, ?_, ?_, ?_⟩
    · simp [List.count_append, List.count_cons, hca]
    · simp [List.count_append, List.count_cons, hcs]
    · simp [sepAux, hsep]
    · simp [List.count_append, List.count_cons, hca]
    · simp [List.count_append, List.count_cons, hcs]
    · simp [sepAux, hsep]

/-- C2: with N attempts available and every attempt failing to yield a
complete record, the loop performs exactly N attempts, sleeps 5
seconds after each failed attempt (so consecutive attempts are
separated by the fixed delay), and then exits fatally with code 1;
no further attempt occurs. -/
theorem c2_exhaustion (no : Bool) (env : Nat → ApiV → Resp) (N : Nat)
    (h : ∀ k, k < N →
      (oneAttempt no (env k ApiV.v2) (env k ApiV.v1)).2 = StepRes.retry) :
    (get_cw_data no N env).2 = CwOutcome.exit1 ∧
    (get_cw_data no N env).1.count Event.attemptStart = N ∧
    (get_cw_data no N env).1.count Event.sleep5 = N ∧
    attemptsSeparated (get_cw_data no N env).1 = true := by
  have := pollAux_all_retry_spec no env N 0 (fun k hk => by
    simpa using h k hk)
  simpa [get_cw_data, attemptsSeparated] using this

theorem c2_witness :
    (get_cw_data false 2 envC2).2 = CwOutcome.exit1 ∧
    (get_cw_data false 2 envC2).1.count Event.attemptStart = 2 ∧
    (get_cw_data false 2 envC2).1.count Event.sleep5 = 2 ∧
    attemptsSeparated (get_cw_data false 2 envC2).1 = true :=
  c2_exhaustion false envC2 2 (fun _ _ => rfl)

/-- C3: a success whose payload lacks the token field: with
accept_missing_otp=false the attempt is incomplete (sleep, then the
loop goes on); with accept_missing_otp=true poll returns at once with
the fqdn and no token, and every script invocation receives the
literal NO_OTP sentinel as its otp argument. -/
theorem c3_missing_token (n : Nat) (env : Nat → ApiV → Resp)
    (b inner f : JVal)
    (h200 : env 0 ApiV.v2 = ⟨200, some b⟩)
    (hdata : jindex b "data" = some inner)
    (hno : jmember "ipa_otp" inner = false)
    (hf : jindex inner "fqdn" = some f) :
    get_cw_data false (n + 1) env =
      ([Event.attemptStart, Event.httpGet ApiV.v2, Event.sleep5] ++
          (pollAux false env n 1).1,
        (pollAux false env n 1).2)
    ∧ get_cw_data true (n + 1) env =
      ([Event.attemptStart, Event.httpGet ApiV.v2], CwOutcome.ok f none)
    ∧ (∀ file, scriptInvocation file f none =
        [JVal.str file, f, JVal.str "NO_OTP"]) := by
  refine ⟨?_, ?_, fun file => rfl⟩
  · have hp := parseData_missing_otp_reject b inner hdata hno
    have ha := oneAttempt_v2_200 false (env 0 ApiV.v2) (env 0 ApiV.v1) b h200
    rw [hp] at ha
    exact pollAux_succ_retry false env n 0 _ ha
  · have hp := parseData_missing_otp_accept b inner f hdata hno hf
    have ha := oneAttempt_v2_200 true (env 0 ApiV.v2) (env 0 ApiV.v1) b h200
    rw [hp] at ha
    exact pollAux_succ_success true env n 0 _ f none ha

theorem c3_witness :
    (get_cw_data false 1 envC3 =
      ([Event.attemptStart, Event.httpGet ApiV.v2, Event.sleep5] ++
          (pollAux false envC3 0 1).1,
        (pollAux false envC3 0 1).2)
    ∧ get_cw_data true 1 envC3 =
      ([Event.attemptStart, Event.httpGet ApiV.v2],
        CwOutcome.ok (JVal.str "host1.example.com") none)
    ∧ (∀ file, scriptInvocation file (JVal.str "host1.example.com") none =
        [JVal.str file, JVal.str "host1.example.com",
          JVal.str "NO_OTP"])) :=
  c3_missing_token 0 envC3
    (JVal.obj [("data", JVal.obj [("fqdn", JVal.str "host1.example.com")])])
    (JVal.obj [("fqdn", JVal.str "host1.example.com")])
    (JVal.str "host1.example.com")
    rfl rfl rfl rfl

end CatWeazle

namespace CatWeazle

/-- C6 counterexample: an HTTP 200 whose body lacks the data key is
not handled like an HTTP failure.  With three attempts available the
run raises an uncaught KeyError during the first attempt: the outcome
is an exception, no 5-second wait happens, and no second attempt is
started. -/
theorem c6_counterexample :
    get_cw_data false 3 envC6 =
      ([Event.attemptStart, Event.httpGet ApiV.v2], CwOutcome.exn)
    ∧ (get_cw_data false 3 envC6).1.count Event.sleep5 = 0
    ∧ (get_cw_data false 3 envC6).1.count Event.attemptStart = 1 :=
  ⟨rfl, rfl, rfl⟩

/-- C6 amended: only a success whose body has a data object that
merely lacks the token field (with accept_missing_otp=false) is
treated like an HTTP failure - one attempt consumed, a 5-second wait,
and the loop proceeds; a success whose body is unparsable or lacks the
data key instead raises an uncaught exception that terminates the run
abnormally during that attempt. -/
theorem c6_amended_body_errors (no : Bool) (n : Nat)
    (envA envB envC : Nat → ApiV → Resp) (b c inner : JVal)
    (ha : envA 0 ApiV.v2 = ⟨200, none⟩)
    (hb : envB 0 ApiV.v2 = ⟨200, some b⟩)
    (hbd : jindex b "data" = none)
    (hc : envC 0 ApiV.v2 = ⟨200, some c⟩)
    (hcd : jindex c "data" = some inner)
    (hcm : jmember "ipa_otp" inner = false) :
    get_cw_data no (n + 1) envA =
      ([Event.attemptStart, Event.httpGet ApiV.v2], CwOutcome.exn)
    ∧ get_cw_data no (n + 1) envB =
      ([Event.attemptStart, Event.httpGet ApiV.v2], CwOutcome.exn)
    ∧ get_cw_data false (n + 1) envC =
      ([Event.attemptStart, Event.httpGet ApiV.v2, Event.sleep5] ++
          (pollAux false envC n 1).1,
        (pollAux false envC n 1).2) := by
  refine ⟨?_, ?_, ?_⟩
  · have h1 := oneAttempt_v2_unparsable no (envA 0 ApiV.v2) (envA 0 ApiV.v1) ha
    exact pollAux_succ_crash no envA n 0 _ h1
  · have hp := parseData_no_data no b hbd
    have h1 := oneAttempt_v2_200 no (envB 0 ApiV.v2) (envB 0 ApiV.v1) b hb
    rw [hp] at h1
    exact pollAux_succ_crash no envB n 0 _ h1
  · have hp := parseData_missing_otp_reject c inner hcd hcm
    have h1 := oneAttempt_v2_200 false (envC 0 ApiV.v2) (envC 0 ApiV.v1) c hc
    rw [hp] at h1
    exact pollAux_succ_retry false envC n 0 _ h1

theorem c6_witness :
    (get_cw_data false 1 envC6a =
      ([Event.attemptStart, Event.httpGet ApiV.v2], CwOutcome.exn)
    ∧ get_cw_data false 1 envC6 =
      ([Event.attemptStart, Event.httpGet ApiV.v2], CwOutcome.exn)
    ∧ get_cw_data false 1 envC3 =
      ([Event.attemptStart, Event.httpGet ApiV.v2, Event.sleep5] ++
          (pollAux false envC3 0 1).1,
        (pollAux false envC3 0 1).2)) :=
  c6_amended_body_errors false 0 envC6a envC6 envC3
    (JVal.obj [])
    (JVal.obj [("data", JVal.obj [("fqdn", JVal.str "host1.example.com")])])
    (JVal.obj [("fqdn", JVal.str "host1.example.com")])
    rfl rfl rfl rfl rfl rfl

/-- C7 counterexample: the claimed nesting direction is reversed.  A
v2 success whose body is the singly-nested shape (the data key holding
fqdn and token directly) is accepted and its values extracted, while a
v2 success with the doubly-nested body the claim ascribes to v2 is not
accepted as complete (with one attempt it ends in the retry path and
exits). -/
theorem c7_counterexample :
    get_cw_data false 1 envC7 =
      ([Event.attemptStart, Event.httpGet ApiV.v2],
        CwOutcome.ok (JVal.str "host1.example.com")
          (some (JVal.str "secret123")))
    ∧ get_cw_data false 1 envC7n =
      ([Event.attemptStart, Event.httpGet ApiV.v2, Event.sleep5],
        CwOutcome.exit1) :=
  ⟨rfl, rfl⟩

/-- C7 amended: the legacy (v1) success body is nested one level more
than the primary (v2) body: a v2 success body is a data object holding
fqdn and token directly, a v1 success body wraps that payload in one
further data envelope, and poll extracts the fields from the
corresponding depth of each shape. -/
theorem c7_amended_nesting (no : Bool) (n : Nat)
    (env2 env1 : Nat → ApiV → Resp) (b2 inner2 f2 o2 j d inner1 f1 o1 : JVal)
    (h2 : env2 0 ApiV.v2 = ⟨200, some b2⟩)
    (h2d : jindex b2 "data" = some inner2)
    (h2m : jmember "ipa_otp" inner2 = true)
    (h2f : jindex inner2 "fqdn" = some f2)
    (h2o : jindex inner2 "ipa_otp" = some o2)
    (h1v2 : (env1 0 ApiV.v2).status ≠ 200)
    (h1 : env1 0 ApiV.v1 = ⟨200, some j⟩)
    (h1d : jindex j "data" = some d)
    (h1dd : jindex d "data" = some inner1)
    (h1m : jmember "ipa_otp" inner1 = true)
    (h1f : jindex inner1 "fqdn" = some f1)
    (h1o : jindex inner1 "ipa_otp" = some o1) :
    get_cw_data no (n + 1) env2 =
      ([Event.attemptStart, Event.httpGet ApiV.v2],
        CwOutcome.ok f2 (some o2))
    ∧ get_cw_data no (n + 1) env1 =
      ([Event.attemptStart, Event.httpGet ApiV.v2, Event.httpGet ApiV.v1],
        CwOutcome.ok f1 (some o1)) :=
  ⟨poll_v2_success no n env2 b2 inner2 f2 o2 h2 h2d h2m h2f h2o,
    poll_v1_success no n env1 j d inner1 f1 o1 h1v2 h1 h1d h1dd h1m h1f h1o⟩

theorem c7_witness :
    (get_cw_data false 1 envC7 =
      ([Event.attemptStart, Event.httpGet ApiV.v2],
        CwOutcome.ok (JVal.str "host1.example.com")
          (some (JVal.str "secret123")))
    ∧ get_cw_data false 1 envC1 =
      ([Event.attemptStart, Event.httpGet ApiV.v2, Event.httpGet ApiV.v1],
        CwOutcome.ok (JVal.str "host1.example.com")
          (some (JVal.str "secret123")))) :=
  c7_amended_nesting false 0 envC7 envC1
    (JVal.obj [("data", JVal.obj
      [("fqdn", JVal.str "host1.example.com"),
        ("ipa_otp", JVal.str "secret123")])])
    (JVal.obj [("fqdn", JVal.str "host1.example.com"),
      ("ipa_otp", JVal.str "secret123")])
    (JVal.str "host1.example.com") (JVal.str "secret123")
    (JVal.obj [("data", JVal.obj [("data", JVal.obj
      [("fqdn", JVal.str "host1.example.com"),
        ("ipa_otp", JVal.str "secret123")])])])
    (JVal.obj [("data", JVal.obj
      [("fqdn", JVal.str "host1.example.com"),
        ("ipa_otp", JVal.str "secret123")])])
    (JVal.obj [("fqdn", JVal.str "host1.example.com"),
      ("ipa_otp", JVal.str "secret123")])
    (JVal.str "host1.example.com") (JVal.str "secret123")
    rfl rfl rfl rfl rfl (by decide) rfl rfl rfl rfl rfl rfl

/-- C10: a success whose payload holds the token field with the empty
string is accepted as complete even with accept_missing_otp=false, and
because the otp accessor maps every falsy stored token to the
sentinel, every script invocation then receives the literal NO_OTP as
its otp argument instead of the empty string. -/
theorem c10_empty_token_sentinel (n : Nat) (env : Nat → ApiV → Resp)
    (b inner f : JVal)
    (h200 : env 0 ApiV.v2 = ⟨200, some b⟩)
    (hdata : jindex b "data" = some inner)
    (hm : jmember "ipa_otp" inner = true)
    (hf : jindex inner "fqdn" = some f)
    (ho : jindex inner "ipa_otp" = some (JVal.str "")) :
    get_cw_data false (n + 1) env =
      ([Event.attemptStart, Event.httpGet ApiV.v2],
        CwOutcome.ok f (some (JVal.str "")))
    ∧ pyOtp (some (JVal.str "")) = JVal.str "NO_OTP"
    ∧ (∀ file, scriptInvocation file f (some (JVal.str "")) =
        [JVal.str file, f, JVal.str "NO_OTP"]) :=
  ⟨poll_v2_success false n env b inner f (JVal.str "") h200 hdata hm hf ho,
    rfl, fun _ => rfl⟩

theorem c10_witness :
    (get_cw_data false 1 envC10 =
      ([Event.attemptStart, Event.httpGet ApiV.v2],
        CwOutcome.ok (JVal.str "host1.example.com")
          (some (JVal.str "")))
    ∧ pyOtp (some (JVal.str "")) = JVal.str "NO_OTP"
    ∧ (∀ file, scriptInvocation file (JVal.str "host1.example.com")
        (some (JVal.str "")) =
        [JVal.str file, JVal.str "host1.example.com",
          JVal.str "NO_OTP"])) :=
  c10_empty_token_sentinel 0 envC10
    (JVal.obj [("data", JVal.obj
      [("fqdn", JVal.str "host1.example.com"),
        ("ipa_otp", JVal.str "")])])
    (JVal.obj [("fqdn", JVal.str "host1.example.com"),
      ("ipa_otp", JVal.str "")])
    (JVal.str "host1.example.com")
    rfl rfl rfl rfl rfl

end CatWeazle
